import Mathlib

/-!
# Verification of the polymarket-cli key resolution and persistence subsystem

Shallow embedding of `src/cli/src/config.rs` and `src/cli/src/commands/wallet.rs`.

The external world visible to this subsystem (home directory, the
`POLYMARKET_PRIVATE_KEY` environment variable, and the single config file with
its POSIX permission bits) is modelled by an explicit `World` state.  Filesystem
faults (directory creation, `chmod`, file open, file write failing) are injected
through a `Faults` oracle so that the error paths of `save_private_key` are part
of the model.  The external `serde_json` library is abstracted by the `FileData`
sum: a file either holds the serialization of a `Config` record or content that
does not parse as one; the external `LocalSigner` interface is abstracted by a
function `String → Option String` mapping a private-key string to the derived
address when the key is valid.
-/

deriving instance DecidableEq for Except

namespace PolymarketCli

/-- Credential record persisted as JSON (`Config` in `config.rs`):
`{ private_key, chain_id }`. `u64` is modelled as `Nat`. -/
structure Config where
  private_key : String
  chain_id : Nat
deriving Repr, DecidableEq

/-- `KeySource` in `config.rs`: which of flag/env/file/none supplied the key. -/
inductive KeySource where
  | Flag
  | EnvVar
  | ConfigFile
  | None
deriving Repr, DecidableEq

/-- `KeySource::label` in `config.rs`. -/
def KeySource.label : KeySource → String
  | .Flag => "--private-key flag"
  | .EnvVar => "POLYMARKET_PRIVATE_KEY env var"
  | .ConfigFile => "config file"
  | .None => "not configured"

/-- Content of the config file.  The external `serde_json` library serializes a
`Config` injectively and parses the result back; content is therefore modelled
as either the serialization of some record (`record c`) or content that does not
deserialize as a `Config` (`raw s`, which also stands for a present but
unreadable file, and in particular `raw ""` is the empty file produced by
truncation). -/
inductive FileData where
  | record (c : Config)
  | raw (s : String)
deriving Repr, DecidableEq

/-- The external state the subsystem reads and writes:
* `home`: result of `dirs::home_dir()` (`none` = undeterminable);
* `envKey`: the `POLYMARKET_PRIVATE_KEY` environment variable (`none` = unset,
  `some s` = set to `s`, possibly empty);
* `dirExists`/`dirMode`: the config directory and its permission bits
  (`dirMode` is meaningful only when `dirExists`);
* `file`/`fileMode`: the config file content and its permission bits
  (`fileMode` is meaningful only when `file` is present). -/
structure World where
  home : Option String
  envKey : Option String
  dirExists : Bool
  dirMode : Nat
  file : Option FileData
  fileMode : Nat
deriving Repr, DecidableEq

/-- Fault-injection oracle for the filesystem operations performed by
`save_private_key` (in program order): `fs::create_dir_all`,
`fs::set_permissions`, `OpenOptions::open`, `write_all`. -/
structure Faults where
  mkdirFails : Bool
  chmodFails : Bool
  openFails : Bool
  writeFails : Bool
deriving Repr, DecidableEq

/-- All filesystem operations succeed. -/
def noFaults : Faults := ⟨false, false, false, false⟩

/-- `NO_WALLET_MSG` in `config.rs`. -/
def NO_WALLET_MSG : String :=
  "No wallet configured. Run `polymarket wallet create` or `polymarket wallet import <key>`"

/-- Polygon chain id, the `POLYGON` constant of the external SDK. -/
def POLYGON : Nat := 137

/-- `config_dir` in `config.rs`: `home.join(".config").join("polymarket")`,
failing with the `anyhow` context message when the home directory cannot be
determined. -/
def config_dir (w : World) : Except String String :=
  match w.home with
  | Option.none => Except.error "Could not determine home directory"
  | some home => Except.ok (home ++ "/.config/polymarket")

/-- `config_path` in `config.rs`: `config_dir()?.join("config.json")`. -/
def config_path (w : World) : Except String String :=
  match config_dir w with
  | Except.error e => Except.error e
  | Except.ok dir => Except.ok (dir ++ "/config.json")

/-- `config_exists` in `config.rs`:
`config_path().map(|p| p.exists()).unwrap_or(false)` — path existence, with any
path-resolution error mapped to `false`. -/
def config_exists (w : World) : Bool :=
  match config_path w with
  | Except.error _ => false
  | Except.ok _ => w.file.isSome

/-- `load_config` in `config.rs`: path resolution failure, a missing or
unreadable file, and content that fails to deserialize all yield `none`. -/
def load_config (w : World) : Option Config :=
  match config_path w with
  | Except.error _ => Option.none
  | Except.ok _ =>
    match w.file with
    | some (FileData.record c) => some c
    | _ => Option.none

/-- `load_private_key` in `config.rs`: `load_config().map(|c| c.private_key)`. -/
def load_private_key (w : World) : Option String :=
  (load_config w).map Config.private_key

/-- Default mode bits `fs::create_dir_all` gives a newly created directory
(before the explicit `set_permissions(0o700)` that follows it). -/
def defaultDirMode : Nat := 0o755

/-- Result of a `save_private_key` run: the `Result<()>`, the final external
state, and the sequence of states observable after each filesystem mutation
(what a concurrent reader can see during the save). -/
structure SaveOut where
  result : Except String Unit
  world : World
  trace : List World
deriving Repr, DecidableEq

/-- `save_private_key` in `config.rs` (the `cfg(unix)` path), step by step:
1. `config_dir()?`;
2. `fs::create_dir_all(&dir)` with context `"Failed to create config directory"`;
3. `fs::set_permissions(&dir, 0o700)?` — forced on every save (the raw io error
   is modelled as `"set_permissions failed"`);
4. `serde_json::to_string_pretty` (cannot fail for `Config`) and `config_path()?`
   (already known `Ok` here since `config_dir` succeeded on the same state);
5. `OpenOptions::new().write(true).create(true).truncate(true).mode(0o600).open`
   with context `"Failed to create config file"` — truncates an existing file to
   empty in place; the `0o600` mode applies only when the file is newly created
   (POSIX `open(2)` semantics; the umask is not modelled);
6. `write_all` with context `"Failed to write config file"` — on success the
   file holds the serialization of the record. -/
def save_private_key (f : Faults) (key : String) (chain : Nat) (w : World) : SaveOut :=
  match config_dir w with
  | Except.error e => ⟨Except.error e, w, []⟩
  | Except.ok _dir =>
    if f.mkdirFails then
      ⟨Except.error "Failed to create config directory", w, []⟩
    else
      let w1 : World :=
        { w with dirExists := true,
                 dirMode := if w.dirExists then w.dirMode else defaultDirMode }
      if f.chmodFails then
        ⟨Except.error "set_permissions failed", w1, [w1]⟩
      else
        let w2 : World := { w1 with dirMode := 0o700 }
        if f.openFails then
          ⟨Except.error "Failed to create config file", w2, [w1, w2]⟩
        else
          let w3 : World :=
            { w2 with file := some (FileData.raw ""),
                      fileMode := if w2.file.isSome then w2.fileMode else 0o600 }
          if f.writeFails then
            ⟨Except.error "Failed to write config file", w3, [w1, w2, w3]⟩
          else
            let w4 : World := { w3 with file := some (FileData.record ⟨key, chain⟩) }
            ⟨Except.ok (), w4, [w1, w2, w3, w4]⟩

/-- `resolve_key` in `config.rs`.  Priority: CLI flag > env var > config file.
`std::env::var` yielding a value is `envKey = some key`; the `!key.is_empty()`
test is `key ≠ ""`. -/
def resolve_key (w : World) (cli_flag : Option String) : Option String × KeySource :=
  match cli_flag with
  | some key => (some key, KeySource.Flag)
  | Option.none =>
    match w.envKey with
    | some key =>
      if key = "" then
        match load_private_key w with
        | some k => (some k, KeySource.ConfigFile)
        | Option.none => (Option.none, KeySource.None)
      else
        (some key, KeySource.EnvVar)
    | Option.none =>
      match load_private_key w with
      | some k => (some k, KeySource.ConfigFile)
      | Option.none => (Option.none, KeySource.None)

/-- The overwrite-refusal message `bail!`ed by `guard_overwrite` in `wallet.rs`,
naming the existing config path. -/
def overwriteMsg (path : String) : String :=
  "A wallet already exists at " ++ path ++ ". Use --force to overwrite."

/-- `guard_overwrite` in `wallet.rs`: refuse when `!force && config_exists()`;
the `config_path()?` inside the `bail!` arm propagates a path-resolution
error. -/
def guard_overwrite (force : Bool) (w : World) : Except String Unit :=
  if !force && config_exists w then
    match config_path w with
    | Except.error e => Except.error e
    | Except.ok p => Except.error (overwriteMsg p)
  else
    Except.ok ()

/-- `normalize_key` in `wallet.rs`.  Rust's `str::starts_with` is modelled as
the character-list prefix test. -/
def normalize_key (key : String) : String :=
  if List.isPrefixOf "0x".data key.data || List.isPrefixOf "0X".data key.data then
    key
  else
    "0x" ++ key

/-- Lowercase hex digit for `n < 16`, as produced by Rust's `{:x}` formatting. -/
def hexDigit (n : Nat) : Char :=
  if n < 10 then Char.ofNat (48 + n) else Char.ofNat (87 + n)

/-- `format!("{b:02x}")` for a byte `b < 256`: two lowercase hex digits. -/
def byteHex (b : Nat) : String :=
  String.mk [hexDigit (b / 16 % 16), hexDigit (b % 16)]

/-- `bytes.iter().map(|b| format!("{b:02x}")).collect::<String>()` in
`cmd_create`: concatenation of the per-byte hex strings. -/
def bytesToHex (bytes : List Nat) : String :=
  String.join (bytes.map byteHex)

/-- Outcome of a state-mutating wallet command: its `Result<()>` and the final
external state (unchanged when the command failed before persisting). -/
structure CmdOut where
  result : Except String Unit
  world : World
deriving Repr, DecidableEq

/-- `cmd_create` in `wallet.rs`.  The external `LocalSigner::random()` key
material is the `rnd` byte list; the command formats it as
`"0x" ++ bytesToHex rnd`, saves it with the `POLYGON` chain id, then re-derives
`config_path()?` for the output. Printing is not modelled. -/
def cmd_create (f : Faults) (rnd : List Nat) (force : Bool) (w : World) : CmdOut :=
  match guard_overwrite force w with
  | Except.error e => ⟨Except.error e, w⟩
  | Except.ok _ =>
    let key_hex := "0x" ++ bytesToHex rnd
    let s := save_private_key f key_hex POLYGON w
    match s.result with
    | Except.error e => ⟨Except.error e, s.world⟩
    | Except.ok _ =>
      match config_path s.world with
      | Except.error e => ⟨Except.error e, s.world⟩
      | Except.ok _ => ⟨Except.ok (), s.world⟩

/-- `cmd_import` in `wallet.rs`.  The external
`LocalSigner::from_str(&normalized)` is the parameter
`fromStr : String → Option String`, returning the derived address when the key
string is valid signer material; `none` is `Err`, reported with the `anyhow`
context `"Invalid private key"`.  Printing is not modelled. -/
def cmd_import (fromStr : String → Option String) (f : Faults) (key : String)
    (force : Bool) (w : World) : CmdOut :=
  match guard_overwrite force w with
  | Except.error e => ⟨Except.error e, w⟩
  | Except.ok _ =>
    let normalized := normalize_key key
    match fromStr normalized with
    | Option.none => ⟨Except.error "Invalid private key", w⟩
    | some _address =>
      let s := save_private_key f normalized POLYGON w
      match s.result with
      | Except.error e => ⟨Except.error e, s.world⟩
      | Except.ok _ =>
        match config_path s.world with
        | Except.error e => ⟨Except.error e, s.world⟩
        | Except.ok _ => ⟨Except.ok (), s.world⟩

/-- `cmd_address` in `wallet.rs`: resolve, fail with `NO_WALLET_MSG` on absent,
with `"Invalid private key"` when the signer cannot be constructed, else emit
the derived address only. -/
def cmd_address (fromStr : String → Option String) (flag : Option String)
    (w : World) : Except String String :=
  match (resolve_key w flag).1 with
  | Option.none => Except.error NO_WALLET_MSG
  | some key =>
    match fromStr key with
    | Option.none => Except.error "Invalid private key"
    | some address => Except.ok address

/-- What `cmd_show` emits: the optional derived address, the config path, the
key-source label, and the `configured` bit of the JSON output
(`address.is_some()`). -/
structure ShowReport where
  address : Option String
  path : String
  source_label : String
  configured : Bool
deriving Repr, DecidableEq

/-- `cmd_show` in `wallet.rs`: resolve best-effort (`from_str(k).ok()` swallows
an invalid key), then `config_path()?`, then emit. -/
def cmd_show (fromStr : String → Option String) (flag : Option String)
    (w : World) : Except String ShowReport :=
  let r := resolve_key w flag
  let address := r.1.bind fun k => fromStr k
  match config_path w with
  | Except.error e => Except.error e
  | Except.ok p => Except.ok ⟨address, p, r.2.label, address.isSome⟩

/-- A character Rust's `{:x}` can produce: `0`–`9` or lowercase `a`–`f`. -/
def isLowerHexChar (c : Char) : Bool :=
  (48 ≤ c.toNat && c.toNat ≤ 57) || (97 ≤ c.toNat && c.toNat ≤ 102)

/-! ## Helper lemmas -/

/-- A save on a world with no determinable home directory fails with the
path-resolution error. -/
theorem save_home_none (f : Faults) (key : String) (chain : Nat) (w : World)
    (hv : w.home = Option.none) :
    (save_private_key f key chain w).result
      = Except.error "Could not determine home directory" := by
  simp [save_private_key, config_dir, hv]

/-- A successful save implies the home directory was determinable. -/
theorem save_ok_home (f : Faults) (key : String) (chain : Nat) (w : World)
    (hok : (save_private_key f key chain w).result = Except.ok ()) :
    ∃ h, w.home = some h := by
  cases hv : w.home with
  | none => rw [save_home_none f key chain w hv] at hok; exact absurd hok (by simp)
  | some h => exact ⟨h, rfl⟩

/-- Characterization of the final state of a successful save: directory
present with mode `0o700`, file holding the new record, file mode `0o600` when
the file was created by this save and unchanged otherwise. -/
theorem save_ok_world (f : Faults) (key : String) (chain : Nat) (w : World)
    (hok : (save_private_key f key chain w).result = Except.ok ()) :
    (save_private_key f key chain w).world =
      { w with dirExists := true, dirMode := 0o700,
               file := some (FileData.record ⟨key, chain⟩),
               fileMode := if w.file.isSome then w.fileMode else 0o600 } := by
  obtain ⟨fm, fc, fo, fw⟩ := f
  cases hv : w.home with
  | none => simp [save_private_key, config_dir, hv] at hok
  | some h =>
    cases fm <;> cases fc <;> cases fo <;> cases fw <;>
      simp [save_private_key, config_dir, hv] at hok ⊢

/-- With no injected filesystem faults and a determinable home directory, a
save succeeds. -/
theorem save_noFaults_ok (key : String) (chain : Nat) (w : World) (h : String)
    (hv : w.home = some h) :
    (save_private_key noFaults key chain w).result = Except.ok () := by
  simp [save_private_key, config_dir, hv, noFaults]

/-- The characters of `bytesToHex` spelled out. -/
theorem bytesToHex_data (bytes : List Nat) :
    (bytesToHex bytes).data
      = bytes.flatMap fun b => [hexDigit (b / 16 % 16), hexDigit (b % 16)] := by
  have hfold : ∀ (l : List String) (init : String),
      (l.foldl (fun r s => r ++ s) init).data = init.data ++ l.flatMap String.data := by
    intro l
    induction l with
    | nil => intro init; simp
    | cons x xs ih => intro init; simp [List.foldl, ih, String.data_append]
  simp only [bytesToHex, String.join, hfold, List.flatMap_map]
  simp [byteHex]

/-- `hexDigit` produces a lowercase hex character on every digit. -/
theorem hexDigit_lower : ∀ n, n < 16 → isLowerHexChar (hexDigit n) = true := by decide

/-- Every character `bytesToHex` produces is a lowercase hex character. -/
theorem bytesToHex_lower (bytes : List Nat) :
    (bytesToHex bytes).data.all isLowerHexChar = true := by
  rw [bytesToHex_data, List.all_eq_true]
  intro c hc
  rw [List.mem_flatMap] at hc
  obtain ⟨b, _, hcb⟩ := hc
  simp only [List.mem_cons, List.not_mem_nil, or_false] at hcb
  rcases hcb with h | h
  · exact h ▸ hexDigit_lower _ (Nat.mod_lt _ (by decide))
  · exact h ▸ hexDigit_lower _ (Nat.mod_lt _ (by decide))

/-! ## Theorems -/

/-- **C1**: `resolve_key` obeys strict precedence: an explicit flag value (even
malformed or empty) is returned tagged `Flag`; otherwise a non-empty
`POLYMARKET_PRIVATE_KEY` environment value is returned tagged `EnvVar` (a
set-but-empty env var is treated as absent); otherwise a loadable record's
`private_key` is returned tagged `ConfigFile`; otherwise the result is absent
tagged `None`. -/
theorem resolve_key_precedence (w : World) (flag : Option String) :
    (∀ k, flag = some k → resolve_key w flag = (some k, KeySource.Flag)) ∧
    (flag = Option.none → ∀ e, w.envKey = some e → e ≠ "" →
      resolve_key w flag = (some e, KeySource.EnvVar)) ∧
    (flag = Option.none → (w.envKey = Option.none ∨ w.envKey = some "") →
      ∀ c, load_config w = some c →
        resolve_key w flag = (some c.private_key, KeySource.ConfigFile)) ∧
    (flag = Option.none → (w.envKey = Option.none ∨ w.envKey = some "") →
      load_config w = Option.none →
        resolve_key w flag = (Option.none, KeySource.None)) := by
  refine ⟨?_, ?_, ?_, ?_⟩
  · rintro k rfl; rfl
  · rintro rfl e he hne
    simp [resolve_key, he, hne]
  · rintro rfl henv c hc
    rcases henv with h | h <;> simp [resolve_key, h, load_private_key, hc]
  · rintro rfl henv hl
    rcases henv with h | h <;> simp [resolve_key, h, load_private_key, hl]

/-- Witness for C1: the precedence theorem applied at concrete worlds covering
all four branches (flag wins; env wins; empty env falls through to the file;
nothing resolvable is absent). -/
theorem resolve_key_precedence_witness :
    resolve_key ⟨some "/h", some "0xBB", true, 0o700, some (FileData.record ⟨"0xCC", 137⟩), 0o600⟩
        (some "0xAA") = (some "0xAA", KeySource.Flag) ∧
    resolve_key ⟨some "/h", some "0xBB", true, 0o700, some (FileData.record ⟨"0xCC", 137⟩), 0o600⟩
        Option.none = (some "0xBB", KeySource.EnvVar) ∧
    resolve_key ⟨some "/h", some "", true, 0o700, some (FileData.record ⟨"0xCC", 137⟩), 0o600⟩
        Option.none = (some "0xCC", KeySource.ConfigFile) ∧
    resolve_key ⟨some "/h", some "", true, 0o700, some (FileData.raw "junk"), 0o600⟩
        Option.none = (Option.none, KeySource.None) := by
  refine ⟨(resolve_key_precedence _ _).1 "0xAA" rfl,
          (resolve_key_precedence _ _).2.1 rfl "0xBB" rfl (by decide),
          ?_, (resolve_key_precedence _ _).2.2.2 rfl (Or.inr rfl) (by decide)⟩
  exact (resolve_key_precedence
    ⟨some "/h", some "", true, 0o700, some (FileData.record ⟨"0xCC", 137⟩), 0o600⟩
    Option.none).2.2.1 rfl (Or.inr rfl) ⟨"0xCC", 137⟩ (by decide)

/-- **C7**: `load_config` never returns an error (its result type is `Option`):
a present-but-unparseable file, a missing file, and an undeterminable home
directory all yield `none`, indistinguishable from absence; and a present
record is the only way to load `some`. -/
theorem load_config_never_fails (w : World) (s : String) :
    load_config { w with file := some (FileData.raw s) } = Option.none ∧
    load_config { w with file := Option.none } = Option.none ∧
    load_config { w with home := Option.none } = Option.none ∧
    (∀ c, load_config w = some c → w.file = some (FileData.record c)) := by
  refine ⟨?_, ?_, ?_, ?_⟩
  · cases hv : w.home <;> simp [load_config, config_path, config_dir, hv]
  · cases hv : w.home <;> simp [load_config, config_path, config_dir, hv]
  · simp [load_config, config_path, config_dir]
  · intro c hc
    cases hv : w.home with
    | none => simp [load_config, config_path, config_dir, hv] at hc
    | some h =>
      cases hf : w.file with
      | none => simp [load_config, config_path, config_dir, hv, hf] at hc
      | some fd =>
        cases fd with
        | record c2 =>
          simp [load_config, config_path, config_dir, hv, hf] at hc
          rw [hc]
        | raw s2 => simp [load_config, config_path, config_dir, hv, hf] at hc

/-- Witness for C7: a malformed file loads as `none`; a stored record is what a
successful load returns. -/
theorem load_config_never_fails_witness :
    load_config ⟨some "/h", Option.none, true, 0o700, some (FileData.raw "oops"), 0o600⟩
      = Option.none ∧
    (⟨some "/h", Option.none, true, 0o700, some (FileData.record ⟨"0xCC", 5⟩), 0o600⟩ : World).file
      = some (FileData.record ⟨"0xCC", 5⟩) := by
  refine ⟨?_, ?_⟩
  · exact (load_config_never_fails
      ⟨some "/h", Option.none, true, 0o700, Option.none, 0o600⟩ "oops").1
  · exact (load_config_never_fails
      ⟨some "/h", Option.none, true, 0o700, some (FileData.record ⟨"0xCC", 5⟩), 0o600⟩
      "x").2.2.2 ⟨"0xCC", 5⟩ (by decide)

/-- **C10**: the overwrite guard is decided by path existence, not record
loadability: a present but malformed config file loads as `none` yet
`config_exists` is `true`, so `create`/`import` without `--force` still refuse
naming the path and persist nothing; and `config_exists` never fails, mapping a
path-resolution error to `false`. -/
theorem guard_by_path_existence (fromStr : String → Option String) (f : Faults)
    (rnd : List Nat) (raw : String) (w : World) (s p : String)
    (hf : w.file = some (FileData.raw s)) (hp : config_path w = Except.ok p) :
    load_config w = Option.none ∧
    config_exists w = true ∧
    (cmd_create f rnd false w).result = Except.error (overwriteMsg p) ∧
    (cmd_create f rnd false w).world = w ∧
    (cmd_import fromStr f raw false w).result = Except.error (overwriteMsg p) ∧
    (cmd_import fromStr f raw false w).world = w ∧
    (∀ v : World, v.home = Option.none → config_exists v = false) := by
  have hex : config_exists w = true := by simp [config_exists, hp, hf]
  have hg : guard_overwrite false w = Except.error (overwriteMsg p) := by
    simp [guard_overwrite, hex, hp]
  refine ⟨by simp [load_config, hp, hf], hex, ?_, ?_, ?_, ?_, ?_⟩
  · simp [cmd_create, hg]
  · simp [cmd_create, hg]
  · simp [cmd_import, hg]
  · simp [cmd_import, hg]
  · intro v hv
    simp [config_exists, config_path, config_dir, hv]

/-- Witness for C10 at a concrete malformed-file world. -/
theorem guard_by_path_existence_witness :
    load_config ⟨some "/h", Option.none, true, 0o700, some (FileData.raw "not json"), 0o600⟩
      = Option.none ∧
    (cmd_import (fun _ => some "0xADDR") noFaults "abcd" false
        ⟨some "/h", Option.none, true, 0o700, some (FileData.raw "not json"), 0o600⟩).result
      = Except.error (overwriteMsg "/h/.config/polymarket/config.json") := by
  have h := guard_by_path_existence (fun _ => some "0xADDR") noFaults [] "abcd"
    ⟨some "/h", Option.none, true, 0o700, some (FileData.raw "not json"), 0o600⟩
    "not json" "/h/.config/polymarket/config.json" rfl rfl
  exact ⟨h.1, h.2.2.2.2.1⟩

/-- **C4**: whenever a credential record exists, `create(force:=false)` and
`import(force:=false)` fail with the overwrite-refusal error naming the
existing config path and persist nothing; with `force:=true` the guard never
fires and, absent other errors (no filesystem faults, and for import a key the
signer accepts), the operation succeeds. -/
theorem overwrite_guard_spec (fromStr : String → Option String) (f : Faults)
    (rnd : List Nat) (raw : String) (w : World) (p : String)
    (hp : config_path w = Except.ok p) (hex : config_exists w = true) :
    (cmd_create f rnd false w).result = Except.error (overwriteMsg p) ∧
    (cmd_create f rnd false w).world = w ∧
    (cmd_import fromStr f raw false w).result = Except.error (overwriteMsg p) ∧
    (cmd_import fromStr f raw false w).world = w ∧
    guard_overwrite true w = Except.ok () ∧
    (cmd_create noFaults rnd true w).result = Except.ok () ∧
    (∀ a, fromStr (normalize_key raw) = some a →
      (cmd_import fromStr noFaults raw true w).result = Except.ok ()) := by
  obtain ⟨h, hv⟩ : ∃ h, w.home = some h := by
    cases hv : w.home with
    | none => simp [config_path, config_dir, hv] at hp
    | some h => exact ⟨h, rfl⟩
  have hg : guard_overwrite false w = Except.error (overwriteMsg p) := by
    simp [guard_overwrite, hex, hp]
  refine ⟨by simp [cmd_create, hg], by simp [cmd_create, hg],
          by simp [cmd_import, hg], by simp [cmd_import, hg],
          by simp [guard_overwrite], ?_, ?_⟩
  · simp [cmd_create, guard_overwrite, save_private_key, config_dir, config_path,
      noFaults, hv]
  · intro a ha
    simp [cmd_import, guard_overwrite, ha, save_private_key, config_dir, config_path,
      noFaults, hv]

/-- Witness for C4: a world with an existing record refuses without `--force`
and succeeds with it. -/
theorem overwrite_guard_spec_witness :
    (cmd_create noFaults [171] false
        ⟨some "/h", Option.none, true, 0o700, some (FileData.record ⟨"0xCC", 137⟩), 0o600⟩).result
      = Except.error (overwriteMsg "/h/.config/polymarket/config.json") ∧
    (cmd_import (fun _ => some "0xADDR") noFaults "ab" true
        ⟨some "/h", Option.none, true, 0o700, some (FileData.record ⟨"0xCC", 137⟩), 0o600⟩).result
      = Except.ok () := by
  have h := overwrite_guard_spec (fun _ => some "0xADDR") noFaults [171] "ab"
    ⟨some "/h", Option.none, true, 0o700, some (FileData.record ⟨"0xCC", 137⟩), 0o600⟩
    "/h/.config/polymarket/config.json" rfl rfl
  exact ⟨h.1, h.2.2.2.2.2.2 "0xADDR" rfl⟩

/-- **C8**: round-trip: a successful `save_private_key key chain` followed by
`load_config` yields a present record whose `private_key` is `key` and whose
`chain_id` is `chain`. -/
theorem save_load_roundtrip (f : Faults) (w : World) (key : String) (chain : Nat)
    (hok : (save_private_key f key chain w).result = Except.ok ()) :
    load_config (save_private_key f key chain w).world = some ⟨key, chain⟩ := by
  obtain ⟨h, hv⟩ := save_ok_home f key chain w hok
  rw [save_ok_world f key chain w hok]
  simp [load_config, config_path, config_dir, hv]

/-- Witness for C8: a concrete save on an empty world loads back. -/
theorem save_load_roundtrip_witness :
    load_config (save_private_key noFaults "0xAB" 137
      ⟨some "/h", Option.none, false, 0, Option.none, 0⟩).world = some ⟨"0xAB", 137⟩ :=
  save_load_roundtrip noFaults ⟨some "/h", Option.none, false, 0, Option.none, 0⟩
    "0xAB" 137 (by decide)

/-- **C2 counterexample**: `save_private_key` is not all-or-nothing.  On a
world whose file already holds the record `⟨"0xOLD", 137⟩`, a fault-free save
of `"0xNEW"` exposes an intermediate observable state whose file is the empty
truncated content — neither the old record nor the new one — and a save whose
write step fails ends with the file truncated empty, the prior content lost. -/
theorem save_atomicity_counterexample :
    some (FileData.raw "") ∈
      ((save_private_key noFaults "0xNEW" 137
        ⟨some "/h", Option.none, true, 0o700,
          some (FileData.record ⟨"0xOLD", 137⟩), 0o600⟩).trace.map World.file) ∧
    some (FileData.raw "") ≠ some (FileData.record (⟨"0xOLD", 137⟩ : Config)) ∧
    some (FileData.raw "") ≠ some (FileData.record (⟨"0xNEW", 137⟩ : Config)) ∧
    (save_private_key ⟨false, false, false, true⟩ "0xNEW" 137
        ⟨some "/h", Option.none, true, 0o700,
          some (FileData.record ⟨"0xOLD", 137⟩), 0o600⟩).result
      = Except.error "Failed to write config file" ∧
    (save_private_key ⟨false, false, false, true⟩ "0xNEW" 137
        ⟨some "/h", Option.none, true, 0o700,
          some (FileData.record ⟨"0xOLD", 137⟩), 0o600⟩).world.file
      = some (FileData.raw "") := by decide

/-- **C2 amended**: `save_private_key` replaces the file by truncating it in
place rather than writing a temporary file and renaming: a successful save
leaves exactly the new record, every state observable during the save holds
the prior file content, the empty truncated file, or the new record — with the
truncated state genuinely observable between the open and the write — and a
save whose write step fails leaves the file truncated empty rather than with
its previous content. -/
theorem save_truncate_in_place (f : Faults) (w : World) (key : String) (chain : Nat) :
    ((save_private_key f key chain w).result = Except.ok () →
      (save_private_key f key chain w).world.file
        = some (FileData.record ⟨key, chain⟩)) ∧
    (∀ t ∈ (save_private_key f key chain w).trace,
      t.file = w.file ∨ t.file = some (FileData.raw "") ∨
        t.file = some (FileData.record ⟨key, chain⟩)) ∧
    (f.mkdirFails = false → f.chmodFails = false → f.openFails = false →
      f.writeFails = true → ∀ h, w.home = some h →
      (save_private_key f key chain w).result
          = Except.error "Failed to write config file" ∧
        (save_private_key f key chain w).world.file = some (FileData.raw "")) := by
  obtain ⟨fm, fc, fo, fw⟩ := f
  refine ⟨?_, ?_, ?_⟩
  · intro hok
    rw [save_ok_world ⟨fm, fc, fo, fw⟩ key chain w hok]
  · intro t ht
    cases hv : w.home with
    | none => simp [save_private_key, config_dir, hv] at ht
    | some h =>
      cases fm <;> cases fc <;> cases fo <;> cases fw <;>
        simp [save_private_key, config_dir, hv] at ht <;>
        (rcases ht with rfl | rfl | rfl | rfl <;> simp)
  · intro hm hc ho hw h hv
    subst hm; subst hc; subst ho; subst hw
    simp [save_private_key, config_dir, hv]

/-- Witness for C2 amended: the concrete success and write-failure outcomes. -/
theorem save_truncate_in_place_witness :
    (save_private_key noFaults "0xN" 7
        ⟨some "/h", Option.none, false, 0, Option.none, 0⟩).world.file
      = some (FileData.record ⟨"0xN", 7⟩) ∧
    (save_private_key ⟨false, false, false, true⟩ "0xN" 7
        ⟨some "/h", Option.none, false, 0, Option.none, 0⟩).world.file
      = some (FileData.raw "") := by
  refine ⟨(save_truncate_in_place noFaults
      ⟨some "/h", Option.none, false, 0, Option.none, 0⟩ "0xN" 7).1 (by decide), ?_⟩
  exact ((save_truncate_in_place ⟨false, false, false, true⟩
      ⟨some "/h", Option.none, false, 0, Option.none, 0⟩ "0xN" 7).2.2
    rfl rfl rfl rfl "/h" rfl).2

/-- **C5 counterexample**: the file mode is not forced to `0o600` on every
successful save.  On a world whose config file already exists with mode
`0o644`, a fault-free save succeeds and the file keeps mode `0o644`, because
the `mode(0o600)` of `OpenOptions` applies only when the file is created. -/
theorem save_file_mode_counterexample :
    (save_private_key noFaults "0xK" 137
        ⟨some "/h", Option.none, true, 0o700,
          some (FileData.record ⟨"0xOLD", 137⟩), 0o644⟩).result = Except.ok () ∧
    (save_private_key noFaults "0xK" 137
        ⟨some "/h", Option.none, true, 0o700,
          some (FileData.record ⟨"0xOLD", 137⟩), 0o644⟩).world.fileMode = 0o644 ∧
    (0o644 : Nat) ≠ 0o600 := by decide

/-- **C5 amended**: after every successful save the config directory exists
with its permission bits forced to `0o700`; the config file's bits equal
`0o600` whenever the file was created by this save (no file existed before),
while a file that already existed keeps its prior bits. -/
theorem save_permissions (f : Faults) (w : World) (key : String) (chain : Nat)
    (hok : (save_private_key f key chain w).result = Except.ok ()) :
    (save_private_key f key chain w).world.dirExists = true ∧
    (save_private_key f key chain w).world.dirMode = 0o700 ∧
    (w.file = Option.none →
      (save_private_key f key chain w).world.fileMode = 0o600) ∧
    (w.file.isSome = true →
      (save_private_key f key chain w).world.fileMode = w.fileMode) := by
  rw [save_ok_world f key chain w hok]
  refine ⟨rfl, rfl, ?_, ?_⟩
  · intro hf; simp [hf]
  · intro hf; simp [hf]

/-- Witness for C5 amended: a fresh save sets `0o700`/`0o600`. -/
theorem save_permissions_witness :
    (save_private_key noFaults "0xK" 137
        ⟨some "/h", Option.none, false, 0, Option.none, 0⟩).world.dirMode = 0o700 ∧
    (save_private_key noFaults "0xK" 137
        ⟨some "/h", Option.none, false, 0, Option.none, 0⟩).world.fileMode = 0o600 := by
  have h := save_permissions noFaults
    ⟨some "/h", Option.none, false, 0, Option.none, 0⟩ "0xK" 137 (by decide)
  exact ⟨h.2.1, h.2.2.1 rfl⟩

/-- **C6**: `cmd_show` never fails whatever the flag, environment and config
file hold (given a determinable home directory, the only state `config_path`
can fail on): it reports the resolved address when the key parses, the address
as absent when no valid key resolves, and always the config path and the
key-source label. -/
theorem show_never_fails (fromStr : String → Option String) (flag : Option String)
    (w : World) (h : String) (hv : w.home = some h) :
    cmd_show fromStr flag w =
      Except.ok ⟨(resolve_key w flag).1.bind fromStr,
                 h ++ "/.config/polymarket/config.json",
                 (resolve_key w flag).2.label,
                 ((resolve_key w flag).1.bind fromStr).isSome⟩ ∧
    ((resolve_key w flag).1.bind fromStr = Option.none →
      cmd_show fromStr flag w =
        Except.ok ⟨Option.none, h ++ "/.config/polymarket/config.json",
                   (resolve_key w flag).2.label, false⟩) := by
  have h1 : cmd_show fromStr flag w =
      Except.ok ⟨(resolve_key w flag).1.bind fromStr,
                 h ++ "/.config/polymarket/config.json",
                 (resolve_key w flag).2.label,
                 ((resolve_key w flag).1.bind fromStr).isSome⟩ := by
    simp [cmd_show, config_path, config_dir, hv, String.append_assoc]
  refine ⟨h1, fun ha => ?_⟩
  rw [h1, ha]
  rfl

/-- Witness for C6: `show` on a world with a corrupt config file and no other
source succeeds and reports no address, the path, and the `ConfigFile`-absent
label. -/
theorem show_never_fails_witness :
    cmd_show (fun _ => Option.none) Option.none
        ⟨some "/h", Option.none, true, 0o700, some (FileData.raw "corrupt"), 0o600⟩ =
      Except.ok ⟨Option.none, "/h/.config/polymarket/config.json",
                 "not configured", false⟩ := by
  have h := (show_never_fails (fun _ => Option.none) Option.none
    ⟨some "/h", Option.none, true, 0o700, some (FileData.raw "corrupt"), 0o600⟩
    "/h" rfl).2 (by decide)
  exact h

/-- **C9**: `cmd_address` fails with the no-wallet message exactly when
resolution is absent, fails with the invalid-key message exactly when the
resolved value cannot construct a signer, and emits only the derived address
when a valid key resolves. -/
theorem address_error_spec (fromStr : String → Option String) (flag : Option String)
    (w : World) :
    (cmd_address fromStr flag w = Except.error NO_WALLET_MSG ↔
      (resolve_key w flag).1 = Option.none) ∧
    (cmd_address fromStr flag w = Except.error "Invalid private key" ↔
      ∃ k, (resolve_key w flag).1 = some k ∧ fromStr k = Option.none) ∧
    (∀ k a, (resolve_key w flag).1 = some k → fromStr k = some a →
      cmd_address fromStr flag w = Except.ok a) := by
  have hne : ("Invalid private key" : String) ≠ NO_WALLET_MSG := by decide
  refine ⟨?_, ?_, ?_⟩
  · cases hk : (resolve_key w flag).1 with
    | none => simp [cmd_address, hk]
    | some k =>
      cases hf : fromStr k with
      | none => simp [cmd_address, hk, hf, hne]
      | some a => simp [cmd_address, hk, hf]
  · cases hk : (resolve_key w flag).1 with
    | none => simp [cmd_address, hk, Ne.symm hne]
    | some k =>
      cases hf : fromStr k with
      | none => simp [cmd_address, hk, hf]
      | some a => simp [cmd_address, hk, hf]
  · intro k a hk hf
    simp [cmd_address, hk, hf]

/-- Witness for C9: the three outcomes at concrete inputs. -/
theorem address_error_spec_witness :
    cmd_address (fun _ => some "0xADDR") (some "0xAA")
        ⟨some "/h", Option.none, false, 0, Option.none, 0⟩ = Except.ok "0xADDR" ∧
    cmd_address (fun _ => some "0xADDR") Option.none
        ⟨some "/h", Option.none, false, 0, Option.none, 0⟩
      = Except.error NO_WALLET_MSG ∧
    cmd_address (fun _ => Option.none) (some "bad")
        ⟨some "/h", Option.none, false, 0, Option.none, 0⟩
      = Except.error "Invalid private key" := by
  refine ⟨(address_error_spec (fun _ => some "0xADDR") (some "0xAA") _).2.2
            "0xAA" "0xADDR" rfl rfl,
          (address_error_spec (fun _ => some "0xADDR") Option.none _).1.mpr rfl,
          (address_error_spec (fun _ => Option.none) (some "bad") _).2.1.mpr
            ⟨"bad", rfl, rfl⟩⟩

/-- **C3 counterexample**: persisted keys are not always prefixed with the
lowercase `"0x"`.  `normalize_key` keeps an existing uppercase `"0X"` prefix,
so importing `"0XABCD"` (with a signer interface that accepts it) succeeds and
stores a key that does not begin with `"0x"`. -/
theorem import_lowercase_prefix_counterexample :
    normalize_key "0XABCD" = "0XABCD" ∧
    (cmd_import (fun _ => some "0xADDR") noFaults "0XABCD" true
        ⟨some "/h", Option.none, false, 0, Option.none, 0⟩).result = Except.ok () ∧
    (cmd_import (fun _ => some "0xADDR") noFaults "0XABCD" true
        ⟨some "/h", Option.none, false, 0, Option.none, 0⟩).world.file
      = some (FileData.record ⟨"0XABCD", 137⟩) ∧
    List.isPrefixOf "0x".data "0XABCD".data = false := by decide

/-- **C3 amended**: a successful import persists exactly `normalize_key raw`
with the `POLYGON` chain id; the normalized key begins with `"0x"` or `"0X"`,
and with the lowercase `"0x"` whenever the raw input did not already begin
with `"0X"`; every key persisted by a successful create is `"0x"` followed by
lowercase hex digits. -/
theorem persisted_key_normalization (fromStr : String → Option String) (f : Faults)
    (rnd : List Nat) (raw : String) (force : Bool) (w : World) :
    ((cmd_import fromStr f raw force w).result = Except.ok () →
      (cmd_import fromStr f raw force w).world.file
        = some (FileData.record ⟨normalize_key raw, POLYGON⟩)) ∧
    (List.isPrefixOf "0x".data (normalize_key raw).data = true ∨
      List.isPrefixOf "0X".data (normalize_key raw).data = true) ∧
    (List.isPrefixOf "0X".data raw.data = false →
      List.isPrefixOf "0x".data (normalize_key raw).data = true) ∧
    ((cmd_create f rnd force w).result = Except.ok () →
      (cmd_create f rnd force w).world.file
        = some (FileData.record ⟨"0x" ++ bytesToHex rnd, POLYGON⟩) ∧
      ("0x" ++ bytesToHex rnd).data = '0' :: 'x' :: (bytesToHex rnd).data ∧
      (bytesToHex rnd).data.all isLowerHexChar = true) := by
  refine ⟨?_, ?_, ?_, ?_⟩
  · intro hok
    unfold cmd_import at hok ⊢
    cases hg : guard_overwrite force w with
    | error e => simp [hg] at hok
    | ok u =>
      cases hf2 : fromStr (normalize_key raw) with
      | none => simp [hg, hf2] at hok
      | some a =>
        simp only [hg, hf2] at hok ⊢
        cases hs : (save_private_key f (normalize_key raw) POLYGON w).result with
        | error e => simp [hs] at hok
        | ok u2 =>
          obtain ⟨h, hv⟩ := save_ok_home _ _ _ _ hs
          have hw := save_ok_world f (normalize_key raw) POLYGON w hs
          simp [hs, hw, config_path, config_dir, hv]
  · cases hx : List.isPrefixOf "0x".data raw.data with
    | true => left; simp [normalize_key, hx]
    | false =>
      cases hX : List.isPrefixOf "0X".data raw.data with
      | true => right; simp [normalize_key, hx, hX]
      | false =>
        left
        simp [normalize_key, hx, hX, String.data_append, List.isPrefixOf_iff_prefix]
  · intro hX
    cases hx : List.isPrefixOf "0x".data raw.data with
    | true => simp [normalize_key, hx]
    | false =>
      simp [normalize_key, hx, hX, String.data_append, List.isPrefixOf_iff_prefix]
  · intro hok
    unfold cmd_create at hok ⊢
    cases hg : guard_overwrite force w with
    | error e => simp [hg] at hok
    | ok u =>
      simp only [hg] at hok ⊢
      cases hs : (save_private_key f ("0x" ++ bytesToHex rnd) POLYGON w).result with
      | error e => simp [hs] at hok
      | ok u2 =>
        obtain ⟨h, hv⟩ := save_ok_home _ _ _ _ hs
        have hw := save_ok_world f ("0x" ++ bytesToHex rnd) POLYGON w hs
        refine ⟨?_, ?_, bytesToHex_lower rnd⟩
        · simp [hs, hw, config_path, config_dir, hv]
        · rw [String.data_append]
          rfl

/-- Witness for C3 amended: importing a bare key stores it `"0x"`-prefixed,
and a concrete create stores lowercase hex. -/
theorem persisted_key_normalization_witness :
    (cmd_import (fun _ => some "0xADDR") noFaults "abcd" false
        ⟨some "/h", Option.none, false, 0, Option.none, 0⟩).world.file
      = some (FileData.record ⟨normalize_key "abcd", POLYGON⟩) ∧
    List.isPrefixOf "0x".data (normalize_key "abcd").data = true ∧
    (cmd_create noFaults [0xde, 0xad] false
        ⟨some "/h", Option.none, false, 0, Option.none, 0⟩).world.file
      = some (FileData.record ⟨"0x" ++ bytesToHex [0xde, 0xad], POLYGON⟩) := by
  refine ⟨(persisted_key_normalization (fun _ => some "0xADDR") noFaults [] "abcd" false
            ⟨some "/h", Option.none, false, 0, Option.none, 0⟩).1 (by decide),
          (persisted_key_normalization (fun _ => some "0xADDR") noFaults [] "abcd" false
            ⟨some "/h", Option.none, false, 0, Option.none, 0⟩).2.2.1 (by decide),
          ((persisted_key_normalization (fun _ => some "0xADDR") noFaults [0xde, 0xad]
            "abcd" false ⟨some "/h", Option.none, false, 0, Option.none, 0⟩).2.2.2
            (by decide)).1⟩

end PolymarketCli
